/-
Verification of the FZEasyMarauderFlash firmware-flashing tool.

This development gives a shallow embedding of the three Python source files
(ESP32Flasher.py, FirmwareManager.py, EasyInstall.py) and proves properties
of the flashing orchestration: the menu-choice table and its tuple
unpacking, serial-port vendor-ID scanning, the esptool retry loop, the
update action's filesystem deletions, and the latest-firmware resolver.

External capabilities (the esptool flasher, the git client, the HTTP
fetcher, the serial-port enumerator, the filesystem, the operator's input
stream and file creation times) are modelled as explicit parameters:
an environment record supplies the port list, a success oracle for each
flasher invocation, the operator input stream and the prerequisite
resolution results, while the filesystem is a record of file and
directory paths threaded through the functions that touch it.
-/
import Mathlib

/-- Python str() applied to an Optional[str]: None prints as "None". -/
def pyStr : Option String → String
  | some s => s
  | none => "None"

/-- Contiguous-sublist test on character lists. -/
def listContainsSub : List Char → List Char → Bool
  | n, [] => n.isEmpty
  | n, c :: cs => n.isPrefixOf (c :: cs) || listContainsSub n cs

/-- Python substring test: the expression vid in port.hwid. -/
def substr (needle hay : String) : Bool :=
  listContainsSub needle.toList hay.toList

/-- Fuel-indexed matcher for a single glob component: a star matches any
(possibly empty) run of characters, every other character matches itself.
The fuel makes the recursion structural; fuel at least
pat.length + s.length + 1 is always enough since every step consumes
from one of the two lists. -/
def globMatchAux : Nat → List Char → List Char → Bool
  | 0, _, _ => false
  | fuel + 1, pat, s =>
    match pat, s with
    | [], [] => true
    | [], _ :: _ => false
    | '*' :: ps, [] => globMatchAux fuel ps []
    | '*' :: ps, c :: cs =>
        globMatchAux fuel ps (c :: cs) || globMatchAux fuel ('*' :: ps) cs
    | _ :: _, [] => false
    | p :: ps, c :: cs => (p == c) && globMatchAux fuel ps cs

/-- Match one glob pattern component against one path component. -/
def globMatch (pat s : List Char) : Bool :=
  globMatchAux (pat.length + s.length + 1) pat s

/-- Match one pattern component (as a string) against one path component. -/
def compMatch (pat s : String) : Bool :=
  globMatch pat.toList s.toList

/-- Non-recursive glob: the pattern's components must match the path's
components one-to-one (same depth), as glob.glob does. -/
def compsMatch (pat path : List String) : Bool :=
  (pat.length == path.length)
    && (List.zip pat path).all fun pr => compMatch pr.1 pr.2

/-- Recursive glob as used by Path(cwd).rglob(pattern): the pattern must
match a suffix of the path's component list starting at some depth. -/
def rglobMatch (pat path : List String) : Bool :=
  (List.range (path.length + 1)).any fun k => compsMatch pat (path.drop k)

/-- A filesystem snapshot: the regular files and the directories that
exist, each as a list of path components relative to the working
directory. -/
structure FS where
  files : List (List String)
  dirs : List (List String)
deriving DecidableEq, Repr

/-- Render a component path the way error messages show it. -/
def pathStr : List String → String
  | [] => ""
  | [x] => x
  | x :: xs => x ++ "/" ++ pathStr xs

/-- Errors raised by the modelled filesystem calls. -/
inductive PyErr where
  | fileNotFound (p : String)
  | isADirectory (p : String)
  | notEmpty (p : String)
deriving DecidableEq, Repr

/-- Exception text as it identifies the failing call. -/
def errMsg : PyErr → String
  | .fileNotFound p => "FileNotFoundError: " ++ p
  | .isADirectory p => "IsADirectoryError: " ++ p
  | .notEmpty p => "OSError: directory not empty: " ++ p

/-- Path(cwd).rglob(pattern): every existing file or directory whose
relative path matches the pattern at some depth. -/
def FS.rglob (fs : FS) (pat : List String) : List (List String) :=
  (fs.files ++ fs.dirs).filter (rglobMatch pat)

/-- glob.glob(pattern): every existing file or directory whose relative
path matches the pattern exactly (component for component). -/
def FS.glob (fs : FS) (pat : List String) : List (List String) :=
  (fs.files ++ fs.dirs).filter (compsMatch pat)

/-- os.remove(path): deletes a regular file; raises IsADirectoryError on a
directory and FileNotFoundError on a missing path. -/
def osRemove (fs : FS) (p : List String) : Except PyErr FS :=
  if p ∈ fs.dirs then .error (.isADirectory (pathStr p))
  else if p ∈ fs.files then .ok ⟨fs.files.erase p, fs.dirs⟩
  else .error (.fileNotFound (pathStr p))

/-- os.rmdir(path): removes an empty directory; raises FileNotFoundError
on a missing path and an OSError when the directory is not empty. -/
def osRmdir (fs : FS) (p : List String) : Except PyErr FS :=
  if p ∈ fs.dirs then
    if (fs.files ++ fs.dirs).any (fun q => (¬ p = q) ∧ p.isPrefixOf q) then
      .error (.notEmpty (pathStr p))
    else .ok ⟨fs.files, fs.dirs.erase p⟩
  else .error (.fileNotFound (pathStr p))

/-- Loop body of "for paths in ...: os.remove(paths)". -/
def removeAll (fs : FS) (ps : List (List String)) : Except PyErr FS :=
  ps.foldlM osRemove fs

/-- The two deletion loops at the top of ESP32Flasher.update_option:
remove everything matching ESP32Marauder/*/* and then everything
matching EvilPortal/*. -/
def updateRemovePhase (fs : FS) : Except PyErr FS := do
  let fs1 ← removeAll fs (fs.rglob ["ESP32Marauder", "*", "*"])
  removeAll fs1 (fs1.rglob ["EvilPortal", "*"])

/-- Filesystem effect of ESP32Flasher.update_option: the deletion loops
followed by the three os.rmdir calls.  The git reset/clean/pull acts on
the external mirrored repository and has no effect on this snapshot. -/
def update_option_fs (fs : FS) : Except PyErr FS := do
  let fs2 ← updateRemovePhase fs
  let fs3 ← osRmdir fs2 ["ESP32Marauder", "releases"]
  let fs4 ← osRmdir fs3 ["ESP32Marauder"]
  osRmdir fs4 ["EvilPortal"]

/-- Python max(files, key=ctime) over a nonempty list: replace the running
best exactly when the key is strictly greater, so the first maximal
element wins ties. -/
def pymaxBy (key : List String → Nat) (x : List String)
    (xs : List (List String)) : List String :=
  xs.foldl (fun m y => if key m < key y then y else m) x

/-- FirmwareManager.get_latest_firmware: glob the pattern; on an empty
match list print a diagnostic and return None, otherwise the match with
the greatest creation time.  Creation times come from the environment
(os.path.getctime); the filesystem is returned unchanged because the
source only reads it. -/
def get_latest_firmware (fs : FS) (ctime : List String → Nat)
    (pattern : List String) : Option (List String) × FS :=
  match fs.glob pattern with
  | [] => (none, fs)
  | x :: xs => (some (pymaxBy ctime x xs), fs)

/-- The flash_options table of ESP32Flasher.flash_firmware, entry for
entry.  Entries 14 and 15 really have five elements and entry 7 has
eleven, exactly as in the source. -/
def flash_options (c : Int) : Option (List (Option String)) :=
  if c = 1 then some [some "Marauder", some "ESP32-S2", some "4MB", some "0x1000", some "Marauder/bootloader.bin", some "0x8000", some "Marauder/partitions.bin", some "0x10000", some "esp32marauderfw"]
  else if c = 2 then some [some "Save Flipper Blackmagic WiFi settings", some "ESP32-S2", some "4MB", some "0x1000", some "Blackmagic/bootloader.bin", some "0x8000", some "Blackmagic/partition-table.bin", some "0x10000", some "Blackmagic/blackmagic.bin"]
  else if c = 3 then some [some "Blackmagic", some "ESP32-S2", some "4MB", some "0x1000", some "Blackmagic/bootloader.bin", some "0x8000", some "Blackmagic/partition-table.bin", some "0x10000", some "Blackmagic/blackmagic.bin"]
  else if c = 4 then some [some "Marauder", some "ESP32-WROOM", some "4MB", some "0x1000", some "bootloader.bin", some "0x8000", some "partitions.bin", some "0x10000", some "espoldhardwarefw"]
  else if c = 5 then some [some "Marauder", some "ESP32 Marauder Mini", some "4MB", some "0x1000", some "bootloader.bin", some "0x8000", some "partitions.bin", some "0x10000", some "esp32minifw"]
  else if c = 6 then some [some "Marauder v6", some "ESP32-WROOM", some "4MB", some "0x1000", some "bootloader.bin", some "0x8000", some "partitions.bin", some "0x10000", some "espnewhardwarefw"]
  else if c = 7 then some [some "Marauder", some "ESP32-S3", some "8MB", some "0x0", some "S3/bootloader.bin", some "0x8000", some "S3/partitions.bin", some "0xE000", some "S3/boot_app0.bin", some "0x10000", some "esp32s3fw"]
  else if c = 8 then some [some "Marauder", some "AWOK v1-3 or Duoboard", some "4MB", some "0x1000", some "bootloader.bin", some "0x8000", some "partitions.bin", some "0x10000", some "espoldhardwarefw"]
  else if c = 9 then some [some "Marauder", some "AWOK v4 Chungus Board", some "4MB", some "0x1000", some "Marauder/bootloader.bin", some "0x8000", some "Marauder/partitions.bin", some "0x10000", some "esp32marauderfw"]
  else if c = 10 then some [some "Marauder", some "AWOK v5 ESP32", some "4MB", some "0x1000", some "Marauder/bootloader.bin", some "0x8000", some "Marauder/partitions.bin", some "0x10000", some "esp32marauderfw"]
  else if c = 11 then some [some "Marauder", some "AWOK Dual ESP32 (Orange Port)", some "4MB", some "0x1000", some "Marauder/bootloader.bin", some "0x8000", some "Marauder/partitions.bin", some "0x10000", some "esp32marauderfw"]
  else if c = 12 then some [some "Marauder", some "AWOK Dual ESP32 Touch Screen (White Port)", some "4MB", some "0x1000", some "bootloader.bin", some "0x8000", some "partitions.bin", some "0x10000", some "espnewhardwarefw"]
  else if c = 13 then some [some "Marauder Mini", some "AWOK Dual ESP32 Mini (White Port)", some "4MB", some "0x1000", some "bootloader.bin", some "0x8000", some "partitions.bin", some "0x10000", some "esp32minifw"]
  else if c = 14 then some [some "Evil Portal", some "ESP32-WROOM", some "4MB", some "0x1000", some "evilportalfwwroom"]
  else if c = 15 then some [some "Evil Portal", some "ESP32-S2", some "4MB", some "0x1000", some "evilportalfws2"]
  else if c = 16 then some [some "Erase ESP32", none, none, none, none, none, none, none, none]
  else if c = 17 then some [some "Update all files", none, none, none, none, none, none, none, none]
  else if c = 18 then some [some "Exit", none, none, none, none, none, none, none, none]
  else none

/-- The nine variables that flash_firmware unpacks an option tuple into. -/
structure Unpacked where
  selectedfw : Option String
  selectedboard : Option String
  flashsize : Option String
  offset_one : Option String
  bootloader_bin : Option String
  offset_two : Option String
  partitions_bin : Option String
  offset_three : Option String
  fwbin : Option String
deriving DecidableEq, Repr

/-- Python tuple unpacking into nine targets: succeeds exactly when the
tuple has nine elements, otherwise the statement raises ValueError. -/
def unpack9 : List (Option String) → Option Unpacked
  | [a, b, c, d, e, f, g, h, i] => some ⟨a, b, c, d, e, f, g, h, i⟩
  | _ => none

/-- Parameter resolution for a menu choice: look the choice up in the
table and unpack the tuple into the nine variables. -/
def resolveProfile (c : Int) : Option Unpacked :=
  (flash_options c).bind unpack9

/-- Hex digit value of a character. -/
def hexDigit (c : Char) : Option Nat :=
  if '0' ≤ c ∧ c ≤ '9' then some (c.toNat - '0'.toNat)
  else if 'a' ≤ c ∧ c ≤ 'f' then some (c.toNat - 'a'.toNat + 10)
  else if 'A' ≤ c ∧ c ≤ 'F' then some (c.toNat - 'A'.toNat + 10)
  else none

/-- Accumulate hex digits. -/
def parseHexDigits : List Char → Nat → Option Nat
  | [], acc => some acc
  | c :: cs, acc =>
    match hexDigit c with
    | some d => parseHexDigits cs (acc * 16 + d)
    | none => none

/-- Numeric value of a 0x-prefixed offset string such as "0x1000". -/
def parseHex (s : String) : Option Nat :=
  match s.toList with
  | '0' :: 'x' :: rest => if rest.isEmpty then none else parseHexDigits rest 0
  | _ => none

/-- The three (offset, binary) pairs of an unpacked board profile have
strictly increasing numeric offsets. -/
def strictOffsets (u : Unpacked) : Bool :=
  match u.offset_one, u.offset_two, u.offset_three with
  | some a, some b, some c =>
    match parseHex a, parseHex b, parseHex c with
    | some x, some y, some z => decide (x < y) && decide (y < z)
    | _, _, _ => false
  | _, _, _ => false

/-- One enumerated serial port: its hardware id string and device path. -/
structure Port where
  hwid : String
  device : String
deriving DecidableEq, Repr

/-- The fixed vendor-ID scan order of checkforserialport. -/
def vids : List String := ["303A", "10C4", "1A86", "0483"]

/-- The double scan loop of checkforserialport: for each vid in order,
for each port, overwrite the selection on a hardware-id substring match.
There is no break, so later matches replace earlier ones. -/
def scanPorts (ports : List Port) : String × Option String :=
  vids.foldl
    (fun acc vid =>
      ports.foldl
        (fun acc2 port =>
          if substr vid port.hwid then (port.device, some vid) else acc2)
        acc)
    ("", none)

/-- Last element of a list satisfying a predicate, as a left fold. -/
def lastMatch {α : Type} (f : α → Bool) (l : List α) : Option α :=
  l.foldl (fun acc x => if f x then some x else acc) none

/-- Restart lemma: a last-match left fold from an arbitrary accumulator
equals the fold from none, with the accumulator as the fallback. -/
theorem foldl_lastMatch {α : Type} (f : α → Bool) (l : List α) :
    ∀ a : Option α,
      l.foldl (fun acc x => if f x then some x else acc) a
        = match lastMatch f l with
          | some y => some y
          | none => a := by
  induction l with
  | nil => intro a; simp [lastMatch]
  | cons x xs ih =>
    intro a
    have h0 : lastMatch f (x :: xs)
        = xs.foldl (fun acc z => if f z then some z else acc)
            (if f x then some x else none) := rfl
    have hcons : lastMatch f (x :: xs)
        = match lastMatch f xs with
          | some y => some y
          | none => if f x then some x else none := by
      rw [h0, ih]
    rw [List.foldl_cons, ih, hcons]
    cases hxs : lastMatch f xs with
    | some y => rfl
    | none => cases hfx : f x <;> simp

/-- Unfolding lastMatch over a cons cell. -/
theorem lastMatch_cons {α : Type} (f : α → Bool) (x : α) (l : List α) :
    lastMatch f (x :: l)
      = match lastMatch f l with
        | some y => some y
        | none => if f x then some x else none := by
  have h0 : lastMatch f (x :: l)
      = l.foldl (fun acc z => if f z then some z else acc)
          (if f x then some x else none) := rfl
  rw [h0, foldl_lastMatch]

/-- The element that lastMatch returns satisfies the predicate. -/
theorem lastMatch_some_pred {α : Type} (f : α → Bool) (l : List α) :
    ∀ y, lastMatch f l = some y → f y = true := by
  induction l with
  | nil => intro y h; simp [lastMatch] at h
  | cons x xs ih =>
    intro y h
    rw [lastMatch_cons] at h
    cases hxs : lastMatch f xs with
    | some z =>
      rw [hxs] at h
      cases h
      exact ih y hxs
    | none =>
      rw [hxs] at h
      cases hfx : f x with
      | true => rw [hfx] at h; cases h; exact hfx
      | false => rw [hfx] at h; cases h

/-- lastMatch finds something exactly when some element satisfies the
predicate. -/
theorem lastMatch_isSome_any {α : Type} (f : α → Bool) (l : List α) :
    (lastMatch f l).isSome = l.any f := by
  induction l with
  | nil => simp [lastMatch]
  | cons x xs ih =>
    rw [lastMatch_cons, List.any_cons]
    cases hxs : lastMatch f xs with
    | some y =>
      have hany : xs.any f = true := by rw [← ih, hxs]; rfl
      simp [hany]
    | none =>
      have hany : xs.any f = false := by rw [← ih, hxs]; rfl
      cases hfx : f x <;> simp [hany, hfx]

/-- Inner port loop of the scan: it keeps the last port whose hardware id
contains the vid, or the incoming accumulator when none does. -/
theorem scan_inner (vid : String) (ports : List Port) :
    ∀ acc : String × Option String,
      ports.foldl
          (fun acc2 port =>
            if substr vid port.hwid then (port.device, some vid) else acc2)
          acc
        = match lastMatch (fun q => substr vid q.hwid) ports with
          | none => acc
          | some p => (p.device, some vid) := by
  induction ports with
  | nil => intro acc; simp [lastMatch]
  | cons q qs ih =>
    intro acc
    rw [List.foldl_cons, ih, lastMatch_cons]
    cases hqs : lastMatch (fun r => substr vid r.hwid) qs with
    | some y => rfl
    | none => cases hq : substr vid q.hwid <;> simp [hq]

/-- Outer vid loop of the scan, over an arbitrary vid list: the result is
determined by the last vid that has any matching port, and within it the
last matching port. -/
theorem scan_outer (ports : List Port) (vs : List String) :
    ∀ acc : String × Option String,
      vs.foldl
          (fun acc vid =>
            ports.foldl
              (fun acc2 port =>
                if substr vid port.hwid then (port.device, some vid) else acc2)
              acc)
          acc
        = match lastMatch
              (fun v => (lastMatch (fun q => substr v q.hwid) ports).isSome) vs with
          | none => acc
          | some v =>
            match lastMatch (fun q => substr v q.hwid) ports with
            | none => acc
            | some p => (p.device, some v) := by
  induction vs with
  | nil => intro acc; simp [lastMatch]
  | cons v vs' ih =>
    intro acc
    rw [List.foldl_cons, ih, lastMatch_cons]
    cases hvs : lastMatch
        (fun w => (lastMatch (fun q => substr w q.hwid) ports).isSome) vs' with
    | some y =>
      have hy : (lastMatch (fun q => substr y q.hwid) ports).isSome = true :=
        lastMatch_some_pred _ vs' y hvs
      cases hinner : lastMatch (fun q => substr y q.hwid) ports with
      | some p => simp [hinner]
      | none => rw [hinner] at hy; simp at hy
    | none =>
      rw [scan_inner v ports acc]
      cases hinner : lastMatch (fun q => substr v q.hwid) ports with
      | some p => simp [hinner]
      | none => simp [hinner]

/-- Characterization of checkforserialport's scan: the selected device
comes from the last vid in scan order that has any matching port, and
among that vid's matches the last enumerated port is kept. -/
theorem scanPorts_eq (ports : List Port) :
    scanPorts ports
      = match lastMatch
            (fun v => (lastMatch (fun q => substr v q.hwid) ports).isSome) vids with
        | none => ("", none)
        | some v =>
          match lastMatch (fun q => substr v q.hwid) ports with
          | none => ("", none)
          | some p => (p.device, some v) := by
  exact scan_outer ports vids ("", none)

/-- The chosen element of the running-max fold has a key at least the
starting element's key. -/
theorem pymax_key_le (k : List String → Nat) (xs : List (List String)) :
    ∀ x, k x ≤ k (pymaxBy k x xs) := by
  induction xs with
  | nil => intro x; simp [pymaxBy]
  | cons y ys ih =>
    intro x
    show k x ≤ k (List.foldl (fun m z => if k m < k z then z else m)
      (if k x < k y then y else x) ys)
    by_cases h : k x < k y
    · simp only [h, if_true]
      exact Nat.le_trans (Nat.le_of_lt h) (ih y)
    · simp only [h, if_false]
      exact ih x

/-- The running-max fold returns an element of the list it scanned. -/
theorem pymax_mem (k : List String → Nat) (xs : List (List String)) :
    ∀ x, pymaxBy k x xs ∈ x :: xs := by
  induction xs with
  | nil => intro x; simp [pymaxBy]
  | cons y ys ih =>
    intro x
    have hstep : pymaxBy k x (y :: ys) = pymaxBy k (if k x < k y then y else x) ys := rfl
    rw [hstep]
    by_cases h : k x < k y
    · simp only [h, if_true]
      have := ih y
      rcases List.mem_cons.mp this with h1 | h1
      · rw [h1]; exact List.mem_cons_of_mem _ (List.mem_cons_self _ _)
      · exact List.mem_cons_of_mem _ (List.mem_cons_of_mem _ h1)
    · simp only [h, if_false]
      have := ih x
      rcases List.mem_cons.mp this with h1 | h1
      · rw [h1]; exact List.mem_cons_self _ _
      · exact List.mem_cons_of_mem _ (List.mem_cons_of_mem _ h1)

/-- Every scanned element's key is at most the chosen element's key. -/
theorem pymax_ge (k : List String → Nat) (xs : List (List String)) :
    ∀ x, ∀ q ∈ x :: xs, k q ≤ k (pymaxBy k x xs) := by
  induction xs with
  | nil =>
    intro x q hq
    rcases List.mem_cons.mp hq with h | h
    · rw [h]; simp [pymaxBy]
    · cases h
  | cons y ys ih =>
    intro x q hq
    have hstep : pymaxBy k x (y :: ys) = pymaxBy k (if k x < k y then y else x) ys := rfl
    rw [hstep]
    have hbase : k (if k x < k y then y else x) ≤ k (pymaxBy k (if k x < k y then y else x) ys) :=
      pymax_key_le k ys _
    rcases List.mem_cons.mp hq with h1 | h1
    · -- q = x
      subst h1
      by_cases h : k q < k y
      · simp only [h, if_true] at hbase ⊢
        exact Nat.le_trans (Nat.le_of_lt h) hbase
      · simp only [h, if_false] at hbase ⊢
        exact hbase
    · rcases List.mem_cons.mp h1 with h2 | h2
      · -- q = y
        subst h2
        by_cases h : k x < k q
        · simp only [h, if_true] at hbase ⊢
          exact hbase
        · simp only [h, if_false] at hbase ⊢
          exact Nat.le_trans (Nat.le_of_not_lt h) hbase
      · -- q in ys
        exact ih (if k x < k y then y else x) q (List.mem_cons_of_mem _ h2)

/-- C1: for every one of the 15 flashable menu choices parameter
resolution is claimed to succeed with strictly increasing offsets.  The
code delivers that only for choices 1-6 and 8-13; for choices 7, 14 and
15 the tuple unpacking into nine variables fails (eleven and five
elements respectively), so resolution raises ValueError instead of
succeeding.  This theorem evaluates the embedded table at every choice:
the twelve well-formed entries resolve with strictly increasing offsets,
and choices 7, 14 and 15 do not resolve at all. -/
theorem c1_resolution_fails_on_7_14_15 :
    (([1, 2, 3, 4, 5, 6, 8, 9, 10, 11, 12, 13] : List Int).all fun c =>
        match resolveProfile c with
        | some u => strictOffsets u
        | none => false) = true
    ∧ resolveProfile 7 = none
    ∧ resolveProfile 14 = none
    ∧ resolveProfile 15 = none := by
  refine ⟨by decide, by decide, by decide, by decide⟩

/-- The two-port enumeration that separates first-match-wins from the
code's replace-on-match scan: one port matches the first vid in scan
order, another matches the last. -/
def c5ports : List Port :=
  [{ hwid := "USB VID:PID=303A:1001", device := "/dev/ttyACM0" },
   { hwid := "USB VID:PID=0483:5740", device := "/dev/ttyUSB1" }]

/-- C5 counterexample: with one port matching vid 303A (first in scan
order) and one matching 0483 (last), the claim says the 303A port
/dev/ttyACM0 is selected; the code keeps the 0483 port /dev/ttyUSB1
because no loop breaks on a match. -/
theorem c5_first_vid_claim_false :
    scanPorts c5ports = ("/dev/ttyUSB1", some "0483")
    ∧ scanPorts c5ports ≠ ("/dev/ttyACM0", some "303A") := by
  refine ⟨by decide, by decide⟩

/-- C5 amended: in auto-discovery the known vendor IDs are scanned in the
fixed order 303A, 10C4, 1A86, 0483, and the LAST vendor ID in that order
that has any matching port determines the selected device; if multiple
ports match that vendor ID, the last port enumerated is kept. -/
theorem c5_last_vid_and_last_port_win (ports : List Port) (v : String) (p : Port)
    (hv : lastMatch (fun w => ports.any fun q => substr w q.hwid) vids = some v)
    (hp : lastMatch (fun q => substr v q.hwid) ports = some p) :
    scanPorts ports = (p.device, some v) := by
  have hfun : (fun w => (lastMatch (fun q => substr w q.hwid) ports).isSome)
      = (fun w => ports.any fun q => substr w q.hwid) := by
    funext w; exact lastMatch_isSome_any _ ports
  rw [scanPorts_eq, hfun, hv]
  simp [hp]

/-- C5 witness: the amended statement applied to the concrete two-port
enumeration selects the 0483 port. -/
theorem c5_last_vid_witness :
    scanPorts c5ports
      = (({ hwid := "USB VID:PID=0483:5740", device := "/dev/ttyUSB1" } : Port).device,
         some "0483") :=
  c5_last_vid_and_last_port_win c5ports "0483"
    { hwid := "USB VID:PID=0483:5740", device := "/dev/ttyUSB1" }
    (by decide) (by decide)

/-- C7: get_latest_firmware on a pattern with no matches returns None and
leaves the filesystem untouched; with at least one match it returns
exactly one path, a match whose creation time is maximal, again without
touching the filesystem. -/
theorem c7_get_latest_firmware (fs : FS) (ctime : List String → Nat)
    (pat : List String) :
    (fs.glob pat = [] → get_latest_firmware fs ctime pat = (none, fs))
    ∧ (fs.glob pat ≠ [] →
        ∃ p, get_latest_firmware fs ctime pat = (some p, fs)
          ∧ p ∈ fs.glob pat
          ∧ ∀ q ∈ fs.glob pat, ctime q ≤ ctime p) := by
  constructor
  · intro h
    simp [get_latest_firmware, h]
  · intro h
    cases hg : fs.glob pat with
    | nil => exact absurd hg h
    | cons x xs =>
      refine ⟨pymaxBy ctime x xs, ?_, ?_, ?_⟩
      · simp [get_latest_firmware, hg]
      · exact pymax_mem ctime xs x
      · exact pymax_ge ctime xs x

/-- Concrete two-file cache for the C7 witness. -/
def c7fs : FS :=
  { files := [["EvilPortal", "EvilPortalWROOM.bin"], ["EvilPortal", "EvilPortalS2.bin"]],
    dirs := [["EvilPortal"]] }

/-- Concrete creation times for the C7 witness. -/
def c7ct : List String → Nat :=
  fun p => if p = ["EvilPortal", "EvilPortalS2.bin"] then 2 else 1

/-- C7 witness: the nonempty-match half applied to a concrete two-file
cache. -/
theorem c7_witness :
    ∃ p, get_latest_firmware c7fs c7ct ["EvilPortal", "*.bin"] = (some p, c7fs)
      ∧ p ∈ c7fs.glob ["EvilPortal", "*.bin"]
      ∧ ∀ q ∈ c7fs.glob ["EvilPortal", "*.bin"], c7ct q ≤ c7ct p :=
  (c7_get_latest_firmware c7fs c7ct ["EvilPortal", "*.bin"]).2 (by decide)

/-- Observable events of a session: console prints, the menu render, the
fixed sleeps, and each invocation of the external esptool capability with
its parameter list. -/
inductive Event where
  | printed (s : String)
  | menuRendered
  | slept (n : Nat)
  | esptool (params : List (Option String))
deriving DecidableEq, Repr

/-- How a (sub)computation ends: returns normally, calls exit(), raises
an uncaught exception, or runs out of modelling fuel. -/
inductive Outcome where
  | normal
  | exited
  | crashed (msg : String)
  | outOfFuel
deriving DecidableEq, Repr

/-- Firmware paths resolved by the prerequisite checks and stored on the
flasher object (esp32marauderfw and friends). -/
structure ResolvedFW where
  esp32marauderfw : Option String
  evilportalfwwroom : Option String
  evilportalfws2 : Option String
  esp32s3fw : Option String
  espoldhardwarefw : Option String
  esp32minifw : Option String
  espnewhardwarefw : Option String
deriving DecidableEq, Repr

/-- External world: the enumerated serial ports, a success oracle for the
n-th esptool invocation of the session, the operator's input stream, and
the firmware paths that a prerequisite pass would resolve. -/
structure Env where
  ports : List Port
  oracle : Nat → Bool
  inputs : Nat → Int
  resolve : ResolvedFW

/-- Mutable state of the ESP32Flasher object, plus the filesystem
snapshot, the count of esptool invocations so far and the position in
the operator input stream. -/
structure FState where
  serialport : String
  fwchoice : Option Int
  fwchoicepreselect : Bool
  selectedfw : Option String
  selectedboard : Option String
  fw : ResolvedFW
  fs : FS
  invIdx : Nat
  inputIdx : Nat
deriving DecidableEq, Repr

/-- The fixed baud rate self.BR. -/
def BR : String := "115200"

/-- Result of one modelled call: the updated state, the event trace, and
how the call ended. -/
abbrev Res := FState × List Event × Outcome

/-- The retry loop of execute_esptool_command: up to the given number of
iterations; each one prints the message and invokes esptool; on success
it prints the confirmation and breaks; on failure it prints the error
and either exits (third attempt) or waits five seconds and retries. -/
def executeAttempts (env : Env) (board fwname message : String)
    (params : List (Option String)) :
    Nat → Nat → Nat → Nat × List Event × Outcome
  | _, invIdx, 0 => (invIdx, [], .normal)
  | attempts, invIdx, remaining + 1 =>
    let attempts1 := attempts + 1
    let head := [Event.printed message, Event.esptool params]
    if env.oracle invIdx then
      (invIdx + 1,
       head ++ [.printed (board ++ " has been flashed with " ++ fwname)],
       .normal)
    else
      if attempts1 = 3 then
        (invIdx + 1,
         head ++ [.printed "error",
                  .printed ("Could not complete the operation on " ++ board)],
         .exited)
      else
        let rest := executeAttempts env board fwname message params
          attempts1 (invIdx + 1) remaining
        (rest.1,
         head ++ [.printed "error",
                  .printed "Waiting 5 seconds and trying again...",
                  .slept 5] ++ rest.2.1,
         rest.2.2)

/-- ESP32Flasher.execute_esptool_command: three tries with the shared
retry policy. -/
def execute_esptool_command (env : Env) (st : FState) (message : String)
    (params : List (Option String)) : Res :=
  let r := executeAttempts env (pyStr st.selectedboard) (pyStr st.selectedfw)
    message params 0 st.invIdx 3
  ({st with invIdx := r.1}, r.2.1, r.2.2)

/-- ESP32Flasher.erase_esp32: erase with the fixed parameter list
consisting only of erase_flash. -/
def erase_esp32 (env : Env) (st : FState) : Res :=
  execute_esptool_command env st "Erasing firmware..." [some "erase_flash"]

/-- ESP32Flasher.flashtheboard: erase first, then flash.  The eraseparams
argument is accepted but never used, exactly as in the source. -/
def flashtheboard (env : Env) (st : FState)
    (eraseparams flashparams : List (Option String)) : Res :=
  let r1 := erase_esp32 env st
  match r1.2.2 with
  | .normal =>
    let r2 := execute_esptool_command env r1.1
      ("Flashing " ++ pyStr r1.1.selectedfw ++ " on " ++ pyStr r1.1.selectedboard)
      flashparams
    (r2.1, r1.2.1 ++ r2.2.1, r2.2.2)
  | o => (r1.1, r1.2.1, o)

/-- The human-readable hint print_device_type emits for a vendor id. -/
def device_types (d : String) : String :=
  if d = "303A" then "You are most likely using a Flipper Zero WiFi Devboard or an ESP32-S2"
  else if d = "10C4" then "You are most likely using an ESP32-WROOM, an ESP32-S2-WROVER, or an ESP32-S3-WROOM"
  else if d = "1A86" then "You are most likely using a knock-off ESP32 chip! Success is not guaranteed!"
  else if d = "0483" then "You are most likely using an DrB0rk S3 Multiboard"
  else "Unknown device"

/-- Tags for the mutually recursive methods choose_fw, flash_firmware,
checkforserialport and update_option; a single fuel-indexed interpreter
dispatches on the tag so that the recursion is structural on the fuel. -/
inductive Fn where
  | chooseFw
  | flashFw
  | checkPort
  | updateOpt
deriving DecidableEq, Repr

/-- One fuel-indexed interpreter for the four mutually recursive methods.
Each branch mirrors its Python method line by line; every recursive call
spends one unit of fuel. -/
def run : Nat → Fn → Env → FState → Res
  | 0, _, _, st => (st, [], .outOfFuel)
  | n + 1, .chooseFw, env, st =>
    match st.fwchoice with
    | some c =>
      let st1 := {st with fwchoicepreselect := true}
      let evs := [Event.printed ("You have preselected option " ++ toString c),
                  .printed "If you didn\x27t mean to do this, CTRL-C now!",
                  .printed "Waiting 5 seconds before continuing...",
                  .slept 5]
      let r := run n .flashFw env st1
      (r.1, evs ++ r.2.1, r.2.2)
    | none =>
      let st1 := {st with fwchoicepreselect := false}
      let c := env.inputs st.inputIdx
      let st2 := {st1 with fwchoice := some c, inputIdx := st.inputIdx + 1}
      let r := run n .flashFw env st2
      (r.1, [Event.menuRendered] ++ r.2.1, r.2.2)
  | n + 1, .flashFw, env, st =>
    let key : Option (List (Option String)) :=
      match st.fwchoice with
      | some c => flash_options c
      | none => none
    match key with
    | none => (st, [.printed "Invalid option!"], .exited)
    | some tup =>
      match unpack9 tup with
      | none => (st, [], .crashed "ValueError")
      | some u =>
        let st1 := {st with selectedfw := u.selectedfw,
                            selectedboard := u.selectedboard}
        if st.fwchoice = some 16 then erase_esp32 env st1
        else if st.fwchoice = some 17 then run n .updateOpt env st1
        else if st.fwchoice = some 18 then (st1, [.printed "Exiting!"], .exited)
        else
          let rc := run n .checkPort env st1
          match rc.2.2 with
          | .normal =>
            let st2 := rc.1
            let eraseparams : List (Option String) :=
              [some "-p", some st2.serialport, some "-b", some BR,
               some "erase_flash"]
            let flashparams : List (Option String) :=
              [some "-p", some st2.serialport, some "-b", some BR,
               some "-c", st2.selectedboard,
               some "--before", some "default_reset", some "-a", some "no_reset",
               some "write_flash", some "--flash_mode", some "dio",
               some "--flash_freq", some "80m", some "--flash_size", u.flashsize,
               u.offset_one, u.bootloader_bin, u.offset_two, u.partitions_bin,
               u.offset_three, u.fwbin]
            let rf := flashtheboard env st2 eraseparams flashparams
            (rf.1, rc.2.1 ++ rf.2.1, rf.2.2)
          | o => (rc.1, rc.2.1, o)
  | n + 1, .checkPort, env, st =>
    if st.serialport = "" then
      let scanned := scanPorts env.ports
      let st1 := {st with serialport := scanned.1}
      let preEvs := [Event.printed "Checking for serial port..."]
      if st1.serialport = "" then
        let errEvs := [Event.printed "No ESP32 device was detected!",
                       .printed "Please plug in a Flipper WiFi devboard or an ESP32 chip and try again"]
        if st1.fwchoicepreselect = false then
          let r := run n .chooseFw env st1
          match r.2.2 with
          | .normal =>
            match scanned.2 with
            | none => (r.1, preEvs ++ errEvs ++ r.2.1, .crashed "NameError")
            | some d =>
              (r.1, preEvs ++ errEvs ++ r.2.1 ++ [.printed (device_types d)],
               .normal)
          | o => (r.1, preEvs ++ errEvs ++ r.2.1, o)
        else (st1, preEvs ++ errEvs, .exited)
      else
        match scanned.2 with
        | none => (st1, preEvs, .crashed "NameError")
        | some d => (st1, preEvs ++ [.printed (device_types d)], .normal)
    else
      (st,
       [.printed ("Will not check for serial port or possible chip type since it is specified as "
         ++ st.serialport)],
       .normal)
  | n + 1, .updateOpt, env, st =>
    let evs := [Event.printed "Checking for and deleting the files before replacing them..."]
    match update_option_fs st.fs with
    | .error e => (st, evs, .crashed (errMsg e))
    | .ok fs1 =>
      let st1 := {st with fs := fs1}
      let st2 := {st1 with fw := env.resolve}
      let evs2 := [Event.printed "Checking for prerequisites..."]
      let r := run n .chooseFw env st2
      (r.1, evs ++ evs2 ++ r.2.1, r.2.2)

/-- ESP32Flasher.choose_fw at a given fuel. -/
def choose_fw (n : Nat) (env : Env) (st : FState) : Res :=
  run n .chooseFw env st

/-- ESP32Flasher.flash_firmware at a given fuel. -/
def flash_firmware (n : Nat) (env : Env) (st : FState) : Res :=
  run n .flashFw env st

/-- ESP32Flasher.checkforserialport at a given fuel. -/
def checkforserialport (n : Nat) (env : Env) (st : FState) : Res :=
  run n .checkPort env st

/-- ESP32Flasher.update_option at a given fuel. -/
def update_option (n : Nat) (env : Env) (st : FState) : Res :=
  run n .updateOpt env st

/-- A parameter list performs a write: it mentions write_flash. -/
def isWrite (p : List (Option String)) : Bool :=
  p.any fun x => x == some "write_flash"

/-- A parameter list performs a full-flash erase: it mentions
erase_flash. -/
def isErase (p : List (Option String)) : Bool :=
  p.any fun x => x == some "erase_flash"

/-- Event is an esptool invocation. -/
def evEsptool : Event → Bool
  | .esptool _ => true
  | _ => false

/-- Event is an erase invocation. -/
def evErase : Event → Bool
  | .esptool p => isErase p
  | _ => false

/-- Some event of the trace is an erase invocation. -/
def erFlag (t : List Event) : Bool := t.any evErase

/-- Number of esptool invocations in a trace. -/
def countInv (t : List Event) : Nat := t.countP evEsptool

/-- Number of sleeps in a trace. -/
def countSleep (t : List Event) : Nat :=
  t.countP fun e => match e with | .slept _ => true | _ => false

/-- Number of error prints in a trace. -/
def countErr (t : List Event) : Nat :=
  t.countP fun e => match e with | .printed s => s == "error" | _ => false

/-- Every write invocation in the trace is preceded by an erase
invocation; the flag records whether an erase has already been seen. -/
def wp : Bool → List Event → Bool
  | _, [] => true
  | seen, .esptool p :: rest => ((!isWrite p) || seen) && wp (seen || isErase p) rest
  | seen, .printed _ :: rest => wp seen rest
  | seen, .menuRendered :: rest => wp seen rest
  | seen, .slept _ :: rest => wp seen rest

/-- Every esptool invocation in the trace is either a write or carries
exactly the parameter list erase_flash. -/
def evEraseOnly : Event → Bool
  | .esptool p => isWrite p || (p == [some "erase_flash"])
  | _ => true

/-- Trace-level version of evEraseOnly. -/
def eraseOk (t : List Event) : Bool := t.all evEraseOnly

/-- The trace contains no esptool invocation at all. -/
def noEsptool (t : List Event) : Bool := t.all fun e => !evEsptool e

/-- No event of the trace is a write invocation. -/
def noWrite (t : List Event) : Bool :=
  t.all fun e => match e with | .esptool p => !isWrite p | _ => true

/-- Every esptool event of the trace carries exactly the given parameter
list. -/
def paramsOnly (p : List (Option String)) (t : List Event) : Bool :=
  t.all fun e => match e with | .esptool q => q == p | _ => true

/-- The session invariants tracked through the interpreter: writes only
after an erase, and every non-write invocation is exactly erase_flash. -/
def TraceOK (t : List Event) : Prop :=
  wp false t = true ∧ eraseOk t = true

/-- wp over an append: check the first part, then the second with the
flag absorbing any erase seen in the first. -/
theorem wp_append (t1 t2 : List Event) :
    ∀ b, wp b (t1 ++ t2) = (wp b t1 && wp (b || erFlag t1) t2) := by
  induction t1 with
  | nil => intro b; simp [wp, erFlag]
  | cons e t ih =>
    intro b
    cases e with
    | esptool p =>
      simp only [List.cons_append, wp, List.append_eq, ih, erFlag,
        List.any_cons, evErase, Bool.or_assoc, Bool.and_assoc]
    | printed s =>
      simp only [List.cons_append, wp, List.append_eq, ih, erFlag,
        List.any_cons, evErase, Bool.false_or]
    | menuRendered =>
      simp only [List.cons_append, wp, List.append_eq, ih, erFlag,
        List.any_cons, evErase, Bool.false_or]
    | slept m =>
      simp only [List.cons_append, wp, List.append_eq, ih, erFlag,
        List.any_cons, evErase, Bool.false_or]

/-- Once an erase has been seen, any continuation is allowed. -/
theorem wp_true (t : List Event) : wp true t = true := by
  induction t with
  | nil => rfl
  | cons e t ih => cases e <;> simp [wp, ih]

/-- A trace without write invocations satisfies wp under any flag. -/
theorem wp_of_noWrite (t : List Event) (h : noWrite t = true) :
    ∀ b, wp b t = true := by
  induction t with
  | nil => intro b; rfl
  | cons e t ih =>
    intro b
    rw [noWrite, List.all_cons, Bool.and_eq_true] at h
    cases e with
    | esptool p =>
      have hp : isWrite p = false := by
        have := h.1
        simp only at this
        cases hw : isWrite p
        · rfl
        · rw [hw] at this; exact absurd this (by decide)
      simp [wp, hp, ih h.2]
    | printed s => exact (by simp [wp, ih h.2])
    | menuRendered => exact (by simp [wp, ih h.2])
    | slept m => exact (by simp [wp, ih h.2])

/-- A trace without esptool events has no writes. -/
theorem noWrite_of_noEsptool (t : List Event) (h : noEsptool t = true) :
    noWrite t = true := by
  rw [noEsptool, List.all_eq_true] at h
  rw [noWrite, List.all_eq_true]
  intro e he
  have := h e he
  cases e <;> simp_all [evEsptool]

/-- A trace without esptool events trivially satisfies eraseOk. -/
theorem eraseOk_of_noEsptool (t : List Event) (h : noEsptool t = true) :
    eraseOk t = true := by
  rw [noEsptool, List.all_eq_true] at h
  rw [eraseOk, List.all_eq_true]
  intro e he
  have := h e he
  cases e <;> simp_all [evEsptool, evEraseOnly]

/-- A trace without esptool events raises no erase flag. -/
theorem erFlag_of_noEsptool (t : List Event) (h : noEsptool t = true) :
    erFlag t = false := by
  rw [noEsptool, List.all_eq_true] at h
  rw [erFlag]
  cases ha : t.any evErase
  · rfl
  · rw [List.any_eq_true] at ha
    obtain ⟨e, he, hev⟩ := ha
    have := h e he
    cases e <;> simp_all [evEsptool, evErase]

/-- A trace without esptool events satisfies both session invariants. -/
theorem traceOK_of_noEsptool (t : List Event) (h : noEsptool t = true) :
    TraceOK t :=
  ⟨wp_of_noWrite t (noWrite_of_noEsptool t h) false, eraseOk_of_noEsptool t h⟩

/-- eraseOk over an append. -/
theorem eraseOk_append (t1 t2 : List Event) :
    eraseOk (t1 ++ t2) = (eraseOk t1 && eraseOk t2) := by
  simp only [eraseOk, List.all_append]

/-- Prepending esptool-free events preserves the session invariants. -/
theorem traceOK_pure_append (t1 t2 : List Event) (h1 : noEsptool t1 = true)
    (h2 : TraceOK t2) : TraceOK (t1 ++ t2) := by
  constructor
  · simp [wp_append, wp_of_noWrite t1 (noWrite_of_noEsptool t1 h1),
      erFlag_of_noEsptool t1 h1, h2.1]
  · simp [eraseOk_append, eraseOk_of_noEsptool t1 h1, h2.2]

/-- Appending esptool-free events preserves the session invariants. -/
theorem traceOK_append_pure (t1 t2 : List Event) (h1 : TraceOK t1)
    (h2 : noEsptool t2 = true) : TraceOK (t1 ++ t2) := by
  constructor
  · simp [wp_append, h1.1, wp_of_noWrite t2 (noWrite_of_noEsptool t2 h2)]
  · simp [eraseOk_append, h1.2, eraseOk_of_noEsptool t2 h2]

/-- Appending a trace that is erase-safe under every flag preserves the
session invariants. -/
theorem traceOK_append (t1 t2 : List Event) (h1 : TraceOK t1)
    (h2w : ∀ b, wp b t2 = true) (h2e : eraseOk t2 = true) :
    TraceOK (t1 ++ t2) := by
  constructor
  · simp [wp_append, h1.1, h2w]
  · simp [eraseOk_append, h1.2, h2e]

/-- Every esptool event that the retry loop emits carries exactly the
parameter list the call was given. -/
theorem executeAttempts_paramsOnly (env : Env) (bd fw m : String)
    (p : List (Option String)) :
    ∀ r a i, paramsOnly p (executeAttempts env bd fw m p a i r).2.1 = true := by
  intro r
  induction r with
  | zero => intro a i; rfl
  | succ r ih =>
    intro a i
    simp only [executeAttempts]
    cases ho : env.oracle i with
    | true =>
      simp [paramsOnly, evEsptool]
    | false =>
      by_cases h3 : a + 1 = 3
      · simp [h3, paramsOnly]
      · simp only [Bool.false_eq_true, if_false, h3, if_neg h3]
        have := ih (a + 1) (i + 1)
        simp [paramsOnly] at this ⊢
        exact this

/-- The retry loop always emits at least one esptool invocation (the
first attempt always runs). -/
theorem executeAttempts_mem (env : Env) (bd fw m : String)
    (p : List (Option String)) :
    ∀ r a i, Event.esptool p ∈ (executeAttempts env bd fw m p a i (r + 1)).2.1 := by
  intro r a i
  simp only [executeAttempts]
  cases ho : env.oracle i with
  | true => simp
  | false =>
    by_cases h3 : a + 1 = 3
    · simp [h3]
    · simp [h3]

/-- A trace whose esptool events all carry a non-writing parameter list
has no write events. -/
theorem noWrite_of_paramsOnly (p : List (Option String)) (t : List Event)
    (hall : paramsOnly p t = true) (hp : isWrite p = false) :
    noWrite t = true := by
  rw [paramsOnly, List.all_eq_true] at hall
  rw [noWrite, List.all_eq_true]
  intro e he
  have := hall e he
  cases e with
  | esptool q =>
    simp only
    have hq : q = p := eq_of_beq this
    rw [hq, hp]
    rfl
  | printed s => rfl
  | menuRendered => rfl
  | slept n => rfl

/-- A trace whose esptool events all carry a parameter list that is a
write or exactly erase_flash satisfies eraseOk. -/
theorem eraseOk_of_paramsOnly (p : List (Option String)) (t : List Event)
    (hall : paramsOnly p t = true)
    (hp : (isWrite p || (p == [some "erase_flash"])) = true) :
    eraseOk t = true := by
  rw [paramsOnly, List.all_eq_true] at hall
  rw [eraseOk, List.all_eq_true]
  intro e he
  have := hall e he
  cases e with
  | esptool q =>
    simp only [evEraseOnly]
    have hq : q = p := eq_of_beq this
    rw [hq]
    exact hp
  | printed s => rfl
  | menuRendered => rfl
  | slept n => rfl

/-- A trace containing an erase invocation raises the erase flag. -/
theorem erFlag_of_mem (p : List (Option String)) (t : List Event)
    (hm : Event.esptool p ∈ t) (hp : isErase p = true) : erFlag t = true := by
  rw [erFlag, List.any_eq_true]
  exact ⟨Event.esptool p, hm, by simp [evErase, hp]⟩

/-- The erase parameter list is not a write. -/
theorem isWrite_eraseflash : isWrite [some "erase_flash"] = false := by decide

/-- The erase parameter list is an erase. -/
theorem isErase_eraseflash : isErase [some "erase_flash"] = true := by decide

/-- The erase sub-step satisfies both session invariants, under any
incoming erase flag. -/
theorem erase_trace_ok (env : Env) (st : FState) :
    (∀ b, wp b (erase_esp32 env st).2.1 = true)
    ∧ eraseOk (erase_esp32 env st).2.1 = true
    ∧ erFlag (erase_esp32 env st).2.1 = true := by
  have hall := executeAttempts_paramsOnly env (pyStr st.selectedboard)
    (pyStr st.selectedfw) "Erasing firmware..." [some "erase_flash"] 3 0 st.invIdx
  have hmem := executeAttempts_mem env (pyStr st.selectedboard)
    (pyStr st.selectedfw) "Erasing firmware..." [some "erase_flash"] 2 0 st.invIdx
  refine ⟨?_, ?_, ?_⟩
  · exact fun b => wp_of_noWrite _
      (noWrite_of_paramsOnly _ _ hall isWrite_eraseflash) b
  · exact eraseOk_of_paramsOnly _ _ hall (by rw [isWrite_eraseflash]; decide)
  · exact erFlag_of_mem _ _ hmem isErase_eraseflash

/-- flashtheboard satisfies wp under any incoming flag: the erase
sub-step contains no write and raises the erase flag before the write
sub-step runs. -/
theorem flashtheboard_wp (env : Env) (st : FState)
    (ep fp : List (Option String)) :
    ∀ b, wp b (flashtheboard env st ep fp).2.1 = true := by
  intro b
  have he := erase_trace_ok env st
  cases ho : (erase_esp32 env st).2.2 with
  | normal =>
    simp only [flashtheboard, ho]
    rw [wp_append, he.1 b, he.2.2]
    simp [wp_true]
  | exited => simp only [flashtheboard, ho]; exact he.1 b
  | crashed m => simp only [flashtheboard, ho]; exact he.1 b
  | outOfFuel => simp only [flashtheboard, ho]; exact he.1 b

/-- flashtheboard satisfies eraseOk whenever the write parameter list is
a write. -/
theorem flashtheboard_eraseOk (env : Env) (st : FState)
    (ep fp : List (Option String)) (hw : isWrite fp = true) :
    eraseOk (flashtheboard env st ep fp).2.1 = true := by
  have he := erase_trace_ok env st
  cases ho : (erase_esp32 env st).2.2 with
  | normal =>
    simp only [flashtheboard, ho, execute_esptool_command]
    rw [eraseOk_append, he.2.1]
    have hall := executeAttempts_paramsOnly env
      (pyStr (erase_esp32 env st).1.selectedboard)
      (pyStr (erase_esp32 env st).1.selectedfw)
      ("Flashing " ++ pyStr (erase_esp32 env st).1.selectedfw ++ " on "
        ++ pyStr (erase_esp32 env st).1.selectedboard)
      fp 3 0 (erase_esp32 env st).1.invIdx
    rw [eraseOk_of_paramsOnly fp _ hall (by rw [hw]; rfl)]
    rfl
  | exited => simp only [flashtheboard, ho]; exact he.2.1
  | crashed m => simp only [flashtheboard, ho]; exact he.2.1
  | outOfFuel => simp only [flashtheboard, ho]; exact he.2.1

/-- The flashparams list that flash_firmware builds performs a write,
whatever the serial port and resolved paths are. -/
theorem isWrite_flashparams (sp : String) (sb fsz o1 bb o2 pb o3 fw : Option String) :
    isWrite [some "-p", some sp, some "-b", some BR,
      some "-c", sb, some "--before", some "default_reset", some "-a",
      some "no_reset", some "write_flash", some "--flash_mode", some "dio",
      some "--flash_freq", some "80m", some "--flash_size", fsz,
      o1, bb, o2, pb, o3, fw] = true := by
  simp [isWrite]

/-- Master session invariant: every trace the interpreter can produce
satisfies wp (no write invocation before an erase invocation) and
eraseOk (every non-write invocation is exactly erase_flash), whatever
the environment, state and fuel. -/
theorem run_traceOK : ∀ (n : Nat) (fn : Fn) (env : Env) (st : FState),
    TraceOK (run n fn env st).2.1 := by
  intro n
  induction n with
  | zero => intro fn env st; exact ⟨rfl, rfl⟩
  | succ n ih =>
    intro fn env st
    cases fn with
    | chooseFw =>
      cases hc : st.fwchoice with
      | some c =>
        simp only [run, hc]
        refine traceOK_pure_append _ _ ?_ (ih .flashFw env _)
        rfl
      | none =>
        simp only [run, hc]
        refine traceOK_pure_append _ _ ?_ (ih .flashFw env _)
        rfl
    | flashFw =>
      cases hc : st.fwchoice with
      | none =>
        simp only [run, hc]
        exact traceOK_of_noEsptool _ rfl
      | some c =>
        cases hfo : flash_options c with
        | none =>
          simp only [run, hc, hfo]
          exact traceOK_of_noEsptool _ rfl
        | some tup =>
          cases hu : unpack9 tup with
          | none =>
            simp only [run, hc, hfo, hu]
            exact traceOK_of_noEsptool _ rfl
          | some u =>
            by_cases h16 : c = (16 : Int)
            · simp only [run, hc, hfo, hu, h16, if_pos rfl]
              exact ⟨(erase_trace_ok env _).1 false, (erase_trace_ok env _).2.1⟩
            · by_cases h17 : c = (17 : Int)
              · simp only [run, hc, hfo, hu, h17, Option.some.injEq, h16,
                  if_false, if_pos rfl]
                exact ih .updateOpt env _
              · by_cases h18 : c = (18 : Int)
                · simp only [run, hc, hfo, hu, h18, Option.some.injEq, h16, h17,
                    if_false, if_pos rfl]
                  exact traceOK_of_noEsptool _ rfl
                · simp only [run, hc, hfo, hu, Option.some.injEq, h16, h17, h18,
                    if_false]
                  split
                  · refine traceOK_append _ _ (ih .checkPort env _)
                      (flashtheboard_wp env _ _ _)
                      (flashtheboard_eraseOk env _ _ _ ?_)
                    exact isWrite_flashparams _ _ _ _ _ _ _ _ _
                  · exact ih .checkPort env _
    | checkPort =>
      by_cases hsp : st.serialport = ""
      · simp only [run, if_pos hsp]
        cases hscan : scanPorts env.ports with
        | mk sp dev =>
          simp only [hscan]
          by_cases hsp1 : sp = ""
          · simp only [if_pos hsp1]
            cases hpre : st.fwchoicepreselect with
            | false =>
              simp only [hpre, eq_self_iff_true, if_true]
              split
              · -- recursive choose_fw returned normally
                cases dev with
                | none =>
                  refine traceOK_pure_append _ _ ?_ (ih .chooseFw env _)
                  rfl
                | some d =>
                  refine traceOK_append_pure _ _
                    (traceOK_pure_append _ _ ?_ (ih .chooseFw env _)) ?_
                  all_goals rfl
              · refine traceOK_pure_append _ _ ?_ (ih .chooseFw env _)
                rfl
            | true =>
              simp only [hpre, Bool.true_eq_false, if_false]
              exact traceOK_of_noEsptool _ rfl
          · simp only [if_neg hsp1]
            cases dev with
            | none => exact traceOK_of_noEsptool _ rfl
            | some d => exact traceOK_of_noEsptool _ rfl
      · simp only [run, if_neg hsp]
        exact traceOK_of_noEsptool _ rfl
    | updateOpt =>
      cases hup : update_option_fs st.fs with
      | error e =>
        simp only [run, hup]
        exact traceOK_of_noEsptool _ rfl
      | ok fs1 =>
        simp only [run, hup]
        refine traceOK_pure_append _ _ ?_ (ih .chooseFw env _)
        rfl

/-- Empty resolved-firmware record. -/
def fw0 : ResolvedFW := ⟨none, none, none, none, none, none, none⟩

/-- Empty filesystem snapshot. -/
def fs0 : FS := ⟨[], []⟩

/-- Environment with no ports and an always-failing flasher. -/
def env0 : Env :=
  { ports := [], oracle := fun _ => false, inputs := fun _ => 19, resolve := fw0 }

/-- Environment with no ports and an always-succeeding flasher. -/
def envOK : Env :=
  { ports := [], oracle := fun _ => true, inputs := fun _ => 19, resolve := fw0 }

/-- Environment whose flasher fails on the first two invocations and
succeeds from the third on. -/
def envFail2 : Env :=
  { ports := [], oracle := fun k => decide (2 ≤ k), inputs := fun _ => 0,
    resolve := fw0 }

/-- Fresh flasher object state as EasyInstall.py builds it. -/
def st0 : FState :=
  { serialport := "", fwchoice := none, fwchoicepreselect := false,
    selectedfw := some "", selectedboard := some "", fw := fw0, fs := fs0,
    invIdx := 0, inputIdx := 0 }

/-- State preselecting the invalid choice 19. -/
def st19 : FState := {st0 with fwchoice := some 19}

/-- State preselecting choice 1. -/
def st1c : FState := {st0 with fwchoice := some 1}

/-- C3: for any erase or write sub-step, a flasher that fails on exactly
the first two invocations of this call and succeeds on the third leads
to exactly 3 invocations, a normal return and 2 five-second waits; a
flasher that always fails leads to exactly 3 invocations, the error
printed, 2 five-second waits between the attempts, and process
termination. -/
theorem c3_retry_policy (env : Env) (st : FState) (msg : String)
    (params : List (Option String)) :
    (env.oracle st.invIdx = false → env.oracle (st.invIdx + 1) = false →
        env.oracle (st.invIdx + 2) = true →
      countInv (execute_esptool_command env st msg params).2.1 = 3
        ∧ (execute_esptool_command env st msg params).2.2 = Outcome.normal
        ∧ countSleep (execute_esptool_command env st msg params).2.1 = 2)
    ∧ ((∀ k, env.oracle k = false) →
      countInv (execute_esptool_command env st msg params).2.1 = 3
        ∧ (execute_esptool_command env st msg params).2.2 = Outcome.exited
        ∧ countSleep (execute_esptool_command env st msg params).2.1 = 2
        ∧ Event.printed "error" ∈ (execute_esptool_command env st msg params).2.1) := by
  constructor
  · intro h0 h1 h2
    simp [execute_esptool_command, executeAttempts, h0, h1, h2, countInv,
      countSleep, evEsptool, List.countP_cons]
  · intro hall
    simp [execute_esptool_command, executeAttempts, hall, countInv,
      countSleep, evEsptool, List.countP_cons]

/-- C3 witness: the fail-fail-succeed oracle gives 3 invocations and a
normal return; the always-fail oracle gives 3 invocations, 2 waits, an
error print and termination. -/
theorem c3_witness :
    (countInv (execute_esptool_command envFail2 st0 "m" []).2.1 = 3
      ∧ (execute_esptool_command envFail2 st0 "m" []).2.2 = Outcome.normal
      ∧ countSleep (execute_esptool_command envFail2 st0 "m" []).2.1 = 2)
    ∧ (countInv (execute_esptool_command env0 st0 "m" []).2.1 = 3
      ∧ (execute_esptool_command env0 st0 "m" []).2.2 = Outcome.exited
      ∧ countSleep (execute_esptool_command env0 st0 "m" []).2.1 = 2
      ∧ Event.printed "error" ∈ (execute_esptool_command env0 st0 "m" []).2.1) :=
  ⟨(c3_retry_policy envFail2 st0 "m" []).1 rfl rfl rfl,
   (c3_retry_policy env0 st0 "m" []).2 (fun _ => rfl)⟩

/-- Every menu choice outside 1..18 misses the flash_options table. -/
theorem flash_options_outside (c : Int) (h : c < 1 ∨ 18 < c) :
    flash_options c = none := by
  unfold flash_options
  repeat rw [if_neg (by omega)]

/-- C4: a menu choice outside the 18-entry catalog makes the selection
terminate the process with the invalid-option report and no flasher
invocation, both when the choice was preselected and when it was typed
at the menu prompt. -/
theorem c4_invalid_choice (c : Int) (hc : c < 1 ∨ 18 < c) (n : Nat)
    (env : Env) (st : FState) :
    (st.fwchoice = some c →
      (flash_firmware (n + 1) env st).2.2 = Outcome.exited
        ∧ countInv (flash_firmware (n + 1) env st).2.1 = 0
        ∧ Event.printed "Invalid option!" ∈ (flash_firmware (n + 1) env st).2.1)
    ∧ (st.fwchoice = none → env.inputs st.inputIdx = c →
      (choose_fw (n + 2) env st).2.2 = Outcome.exited
        ∧ countInv (choose_fw (n + 2) env st).2.1 = 0
        ∧ Event.printed "Invalid option!" ∈ (choose_fw (n + 2) env st).2.1) := by
  have hfo := flash_options_outside c hc
  constructor
  · intro hfc
    simp [flash_firmware, run, hfc, hfo, countInv, evEsptool, List.countP_cons]
  · intro hfc hin
    simp [choose_fw, run, hfc, hin, hfo, countInv, evEsptool, List.countP_cons]

/-- C4 witness: choice 19 terminates with the invalid-option report and
zero flasher invocations, preselected or typed at the prompt. -/
theorem c4_witness :
    ((flash_firmware 1 env0 st19).2.2 = Outcome.exited
      ∧ countInv (flash_firmware 1 env0 st19).2.1 = 0
      ∧ Event.printed "Invalid option!" ∈ (flash_firmware 1 env0 st19).2.1)
    ∧ ((choose_fw 2 env0 st0).2.2 = Outcome.exited
      ∧ countInv (choose_fw 2 env0 st0).2.1 = 0
      ∧ Event.printed "Invalid option!" ∈ (choose_fw 2 env0 st0).2.1) :=
  ⟨(c4_invalid_choice 19 (by decide) 0 env0 st19).1 rfl,
   (c4_invalid_choice 19 (by decide) 0 env0 st0).2 rfl rfl⟩

/-- flashtheboard's trace always begins with the erase sub-step's trace:
the erase runs unconditionally before any write. -/
theorem flashtheboard_starts_with_erase (env : Env) (st : FState)
    (ep fp : List (Option String)) :
    ∃ t2, (flashtheboard env st ep fp).2.1 = (erase_esp32 env st).2.1 ++ t2 := by
  cases ho : (erase_esp32 env st).2.2 with
  | normal => exact ⟨_, by simp only [flashtheboard, ho]; rfl⟩
  | exited => exact ⟨[], by simp only [flashtheboard, ho, List.append_nil]⟩
  | crashed m => exact ⟨[], by simp only [flashtheboard, ho, List.append_nil]⟩
  | outOfFuel => exact ⟨[], by simp only [flashtheboard, ho, List.append_nil]⟩

/-- C9: for every flashable choice 1..15, the session starting at
choose_fw never gives the flasher a write invocation that was not
preceded by an erase invocation (wp), and flashtheboard's trace always
starts with the erase sub-step's trace. -/
theorem c9_erase_before_write (c : Int) (h1 : 1 ≤ c) (h15 : c ≤ 15)
    (n : Nat) (env : Env) (st : FState) (hc : st.fwchoice = some c) :
    wp false (choose_fw n env st).2.1 = true
    ∧ ∀ (st' : FState) (ep fp : List (Option String)),
        ∃ t2, (flashtheboard env st' ep fp).2.1 = (erase_esp32 env st').2.1 ++ t2 :=
  ⟨(run_traceOK n .chooseFw env st).1,
   fun st' ep fp => flashtheboard_starts_with_erase env st' ep fp⟩

/-- C9 witness: the invariant at the concrete preselected-choice-1
session. -/
theorem c9_witness :
    wp false (choose_fw 3 envOK st1c).2.1 = true
    ∧ ∃ t2, (flashtheboard envOK st0 [] []).2.1
        = (erase_esp32 envOK st0).2.1 ++ t2 :=
  ⟨(c9_erase_before_write 1 (by decide) (by decide) 3 envOK st1c rfl).1,
   (c9_erase_before_write 1 (by decide) (by decide) 3 envOK st1c rfl).2 st0 [] []⟩

/-- C10: flashtheboard's result does not depend on its eraseparams
argument, and in any session every flasher invocation is either a write
or carries exactly the parameter list erase_flash - in particular every
erase invocation (erase-only action and pre-write erase alike) passes
exactly erase_flash, never the port or baud rate. -/
theorem c10_eraseparams_ignored (env : Env) (st : FState)
    (e1 e2 fp : List (Option String)) (n : Nat) :
    flashtheboard env st e1 fp = flashtheboard env st e2 fp
    ∧ eraseOk (choose_fw n env st).2.1 = true :=
  ⟨rfl, (run_traceOK n .chooseFw env st).2⟩

/-- The element that lastMatch returns belongs to the list. -/
theorem lastMatch_mem {α : Type} (f : α → Bool) (l : List α) :
    ∀ y, lastMatch f l = some y → y ∈ l := by
  induction l with
  | nil => intro y h; simp [lastMatch] at h
  | cons x xs ih =>
    intro y h
    rw [lastMatch_cons] at h
    cases hxs : lastMatch f xs with
    | some z =>
      rw [hxs] at h
      cases h
      exact List.mem_cons_of_mem _ (ih _ hxs)
    | none =>
      rw [hxs] at h
      cases hfx : f x with
      | true =>
        rw [hfx] at h
        cases h
        exact List.mem_cons_self _ _
      | false => rw [hfx] at h; cases h

/-- When no enumerated port matches any known vendor id, the scan leaves
the port empty and the device variable unassigned. -/
theorem scanPorts_nomatch (ports : List Port)
    (h : ∀ q ∈ ports, ∀ v ∈ vids, substr v q.hwid = false) :
    scanPorts ports = ("", none) := by
  rw [scanPorts_eq]
  cases hlm : lastMatch
      (fun v => (lastMatch (fun q => substr v q.hwid) ports).isSome) vids with
  | none => rfl
  | some v =>
    exfalso
    have hv := lastMatch_some_pred _ vids v hlm
    have hvmem := lastMatch_mem _ vids v hlm
    rw [lastMatch_isSome_any, List.any_eq_true] at hv
    obtain ⟨q, hq, hsub⟩ := hv
    rw [h q hq v hvmem] at hsub
    exact absurd hsub (by decide)

/-- C6: with no port preconfigured and no device matching any known
vendor id, checkforserialport terminates the process immediately without
rendering the menu and without any flasher invocation when the firmware
choice was preselected; when it was not preselected, it hands control to
choose_fw instead of terminating (and a normal return from that call
would crash on the unbound device variable). -/
theorem c6_discovery_failure_policy (n : Nat) (env : Env) (st : FState)
    (hsp : st.serialport = "")
    (hnm : ∀ q ∈ env.ports, ∀ v ∈ vids, substr v q.hwid = false) :
    (st.fwchoicepreselect = true →
      (checkforserialport (n + 1) env st).2.2 = Outcome.exited
        ∧ Event.menuRendered ∉ (checkforserialport (n + 1) env st).2.1
        ∧ countInv (checkforserialport (n + 1) env st).2.1 = 0)
    ∧ (st.fwchoicepreselect = false →
      checkforserialport (n + 1) env st
        = ((choose_fw n env st).1,
           [Event.printed "Checking for serial port...",
            Event.printed "No ESP32 device was detected!",
            Event.printed "Please plug in a Flipper WiFi devboard or an ESP32 chip and try again"]
             ++ (choose_fw n env st).2.1,
           match (choose_fw n env st).2.2 with
           | Outcome.normal => Outcome.crashed "NameError"
           | o => o)) := by
  have hscan := scanPorts_nomatch env.ports hnm
  constructor
  · intro hpre
    simp [checkforserialport, run, if_pos hsp, hscan, hpre, countInv,
      evEsptool]
  · intro hpre
    have hst1 : (⟨"", st.fwchoice, false, st.selectedfw, st.selectedboard,
        st.fw, st.fs, st.invIdx, st.inputIdx⟩ : FState) = st := by
      rw [← hsp, ← hpre]
    simp only [checkforserialport, choose_fw, run, if_pos hsp, hscan, hpre,
      eq_self_iff_true, if_true, hst1]
    cases ho : (run n .chooseFw env st).2.2 <;> simp [ho]

/-- State with serial port unset and a preselected choice marker. -/
def st6a : FState := {st0 with fwchoicepreselect := true, fwchoice := some 18}

/-- State with serial port unset after an interactive selection of 18. -/
def st6b : FState := {st0 with fwchoicepreselect := false, fwchoice := some 18}

/-- C6 witness: both halves of the policy at a portless environment. -/
theorem c6_witness :
    ((checkforserialport 3 env0 st6a).2.2 = Outcome.exited
      ∧ Event.menuRendered ∉ (checkforserialport 3 env0 st6a).2.1
      ∧ countInv (checkforserialport 3 env0 st6a).2.1 = 0)
    ∧ (checkforserialport 3 env0 st6b
        = ((choose_fw 2 env0 st6b).1,
           [Event.printed "Checking for serial port...",
            Event.printed "No ESP32 device was detected!",
            Event.printed "Please plug in a Flipper WiFi devboard or an ESP32 chip and try again"]
             ++ (choose_fw 2 env0 st6b).2.1,
           match (choose_fw 2 env0 st6b).2.2 with
           | Outcome.normal => Outcome.crashed "NameError"
           | o => o)) :=
  ⟨(c6_discovery_failure_policy 2 env0 st6a rfl (by decide)).1 rfl,
   (c6_discovery_failure_policy 2 env0 st6b rfl (by decide)).2 rfl⟩

/-- osRemove never changes the directory list when it succeeds. -/
theorem osRemove_dirs (fs : FS) (p : List String) (fs' : FS)
    (h : osRemove fs p = .ok fs') : fs'.dirs = fs.dirs := by
  unfold osRemove at h
  split at h
  · simp at h
  · split at h
    · cases h; rfl
    · simp at h

/-- A successful remove loop never changes the directory list. -/
theorem removeAll_dirs : ∀ (ps : List (List String)) (fs fs' : FS),
    removeAll fs ps = .ok fs' → fs'.dirs = fs.dirs := by
  intro ps
  induction ps with
  | nil =>
    intro fs fs' h
    simp only [removeAll, List.foldlM_nil, pure, Except.pure,
      Except.ok.injEq] at h
    rw [← h]
  | cons p ps ih =>
    intro fs fs' h
    rw [removeAll, List.foldlM_cons] at h
    cases ho : osRemove fs p with
    | error e =>
      rw [ho] at h
      simp [Bind.bind, Except.bind] at h
    | ok fs1 =>
      rw [ho] at h
      simp only [Bind.bind, Except.bind] at h
      rw [ih fs1 fs' h, osRemove_dirs fs p fs1 ho]

/-- The deletion loops of update_option never change the directory
list when they succeed. -/
theorem updateRemovePhase_dirs (fs fs2 : FS)
    (h : updateRemovePhase fs = .ok fs2) : fs2.dirs = fs.dirs := by
  unfold updateRemovePhase at h
  cases ho : removeAll fs (fs.rglob ["ESP32Marauder", "*", "*"]) with
  | error e =>
    rw [ho] at h
    simp [Bind.bind, Except.bind] at h
  | ok fs1 =>
    rw [ho] at h
    simp only [Bind.bind, Except.bind] at h
    rw [removeAll_dirs _ _ _ h, removeAll_dirs _ _ _ ho]

/-- When ESP32Marauder/releases does not exist and the deletion loops
go through, update_option's os.rmdir raises FileNotFoundError. -/
theorem update_option_fs_missing (fs fs2 : FS)
    (hrm : updateRemovePhase fs = .ok fs2)
    (hdir : ["ESP32Marauder", "releases"] ∉ fs.dirs) :
    update_option_fs fs = .error (.fileNotFound "ESP32Marauder/releases") := by
  have hd2 : ["ESP32Marauder", "releases"] ∉ fs2.dirs := by
    rw [updateRemovePhase_dirs fs fs2 hrm]; exact hdir
  unfold update_option_fs
  rw [hrm]
  simp only [Bind.bind, Except.bind]
  unfold osRmdir
  rw [if_neg hd2]
  rfl

/-- C8: selecting the update action (choice 17) while the directory
ESP32Marauder/releases does not exist (and the deletion loops find
nothing that fails) crashes the run with FileNotFoundError from
os.rmdir; no flasher invocation happens.  Absence of the directory is
not treated as nothing-to-clean. -/
theorem c8_update_missing_releases_dir (n : Nat) (env : Env) (st : FState)
    (fs2 : FS) (hc : st.fwchoice = some 17)
    (hrm : updateRemovePhase st.fs = .ok fs2)
    (hdir : ["ESP32Marauder", "releases"] ∉ st.fs.dirs) :
    (flash_firmware (n + 2) env st).2.2
        = Outcome.crashed "FileNotFoundError: ESP32Marauder/releases"
      ∧ countInv (flash_firmware (n + 2) env st).2.1 = 0 := by
  have hupd := update_option_fs_missing st.fs fs2 hrm hdir
  have hfo17 : flash_options 17
      = some [some "Update all files", none, none, none, none, none, none,
              none, none] := by decide
  constructor
  · simp [flash_firmware, run, hc, hupd, hfo17, unpack9, errMsg, countInv]
  · simp [flash_firmware, run, hc, hupd, hfo17, unpack9, errMsg, countInv,
      evEsptool]

/-- State preselecting the update action with an empty filesystem. -/
def st17 : FState := {st0 with fwchoice := some 17}

/-- C8 witness: the update action on the empty filesystem crashes with
the directory-not-found error and no flasher invocation. -/
theorem c8_witness :
    (flash_firmware 2 env0 st17).2.2
        = Outcome.crashed "FileNotFoundError: ESP32Marauder/releases"
      ∧ countInv (flash_firmware 2 env0 st17).2.1 = 0 :=
  c8_update_missing_releases_dir 0 env0 st17 fs0 rfl rfl (by decide)

/-- Environment for the C2 scenario: no scanning needed, an
always-succeeding flasher, and an arbitrary resolved-firmware record
standing for the result of the most recent prerequisite check. -/
def c2env (fv : ResolvedFW) : Env :=
  { ports := [], oracle := fun _ => true, inputs := fun _ => 1, resolve := fv }

/-- State for the C2 scenario: choice 1 preselected, port preconfigured,
and the resolved firmware paths from the prerequisite check on the
object. -/
def c2st (fv : ResolvedFW) : FState :=
  { serialport := "COM3", fwchoice := some 1, fwchoicepreselect := true,
    selectedfw := some "", selectedboard := some "", fw := fv, fs := fs0,
    invIdx := 0, inputIdx := 0 }

/-- The write-parameter list that flash_firmware actually hands to the
flasher for choice 1 with port COM3: its firmware slot is the literal
table string esp32marauderfw. -/
def c2params : List (Option String) :=
  [some "-p", some "COM3", some "-b", some "115200", some "-c",
   some "ESP32-S2", some "--before", some "default_reset", some "-a",
   some "no_reset", some "write_flash", some "--flash_mode", some "dio",
   some "--flash_freq", some "80m", some "--flash_size", some "4MB",
   some "0x1000", some "Marauder/bootloader.bin", some "0x8000",
   some "Marauder/partitions.bin", some "0x10000", some "esp32marauderfw"]

/-- C2: flashing choice 1 invokes the flasher with a write-parameter
list whose firmware slot is the literal placeholder esp32marauderfw from
the menu table, not the path resolved by the prerequisite check
(checkforesp32marauder via get_latest_firmware), whatever that resolved
path is. -/
theorem c2_placeholder_reaches_flasher (fv : ResolvedFW)
    (hfw : fv.esp32marauderfw
      = some "ESP32Marauder/releases/esp32_marauder_v1_0_0_flipper.bin") :
    (flash_firmware 5 (c2env fv) (c2st fv)).2.1
        = (flash_firmware 5 (c2env fw0) (c2st fw0)).2.1
    ∧ Event.esptool c2params ∈ (flash_firmware 5 (c2env fw0) (c2st fw0)).2.1
    ∧ isWrite c2params = true
    ∧ c2params.getLast? = some (some "esp32marauderfw")
    ∧ c2params.getLast? ≠ some fv.esp32marauderfw := by
  refine ⟨rfl, by decide, by decide, by decide, ?_⟩
  rw [hfw]
  decide

/-- The concrete resolved-firmware record for the C2 witness. -/
def c2fw : ResolvedFW :=
  { esp32marauderfw
      := some "ESP32Marauder/releases/esp32_marauder_v1_0_0_flipper.bin",
    evilportalfwwroom := none, evilportalfws2 := none, esp32s3fw := none,
    espoldhardwarefw := none, esp32minifw := none, espnewhardwarefw := none }

/-- C2 witness: the placeholder reaches the flasher for the concrete
resolved record. -/
theorem c2_witness :
    (flash_firmware 5 (c2env c2fw) (c2st c2fw)).2.1
        = (flash_firmware 5 (c2env fw0) (c2st fw0)).2.1
    ∧ Event.esptool c2params ∈ (flash_firmware 5 (c2env fw0) (c2st fw0)).2.1
    ∧ isWrite c2params = true
    ∧ c2params.getLast? = some (some "esp32marauderfw")
    ∧ c2params.getLast? ≠ some c2fw.esp32marauderfw :=
  c2_placeholder_reaches_flasher c2fw rfl
